import Mathlib

/-!
Verification of the OSM Rough Backend simulation pipeline.

Shallow embedding of:
- `trace_to_json.py` : the `convert` function (SUMO FCD trace -> per-vehicle JSON)
- `app.py` : the `/simulate` request handler (bbox normalization, infrastructure
  injection with projection fallback, fixed-parameter trip generation and
  simulation, response envelope).

Python floats are modelled as rationals; an XML attribute value is either a
string that parses as a float (`XmlVal.num`) or one that does not
(`XmlVal.bad`); a missing attribute is `Option.none`.  Python exceptions are
modelled with `Except`.
-/

namespace UIDT

/-- An XML attribute value that is present: either parseable as a float
(carrying its numeric value) or present but not parseable (Python `float`
raises `ValueError`). -/
inductive XmlVal where
  | num (q : ℚ)
  | bad
deriving DecidableEq

/-- Python `float(s)`: returns the number or raises. -/
def pyFloat : XmlVal → Except String ℚ
  | .num q => .ok q
  | .bad => .error "could not convert string to float"

/-- A `<vehicle .../>` record inside a timestep: attributes `id`, `x`, `y`,
each possibly absent (`veh.get` returns `None`). -/
structure VehRecord where
  id : Option String
  x : Option XmlVal
  y : Option XmlVal
deriving DecidableEq

/-- A `<timestep .../>` element: its `time` attribute (possibly absent;
`timestep.get('time', '0')` defaults to `'0'`) and its vehicle records in
document order. -/
structure Timestep where
  time : Option XmlVal
  vehs : List VehRecord
deriving DecidableEq

/-- Python `float(timestep.get('time', '0'))`: a missing attribute defaults to 0,
a malformed one raises. -/
def stepTime : Option XmlVal → Except String ℚ
  | none => .ok 0
  | some v => pyFloat v

/-- One output sample `{'time': time, 'lat': lat, 'lon': lon}`. -/
structure Sample where
  time : ℚ
  lat : ℚ
  lon : ℚ
deriving DecidableEq

/-- The `vehicles` dict: Python dicts preserve insertion order, so it is an
association list keyed by vehicle id. -/
abbrev Vehicles := List (String × List Sample)

/-- Python `vehicles.setdefault(vid, []).append(entry)`: append `s` to the entry of
`k`, inserting `k` at the end with `[s]` when absent. -/
def setdefaultAppend (m : Vehicles) (k : String) (s : Sample) : Vehicles :=
  match m with
  | [] => [(k, [s])]
  | (k', v) :: rest =>
    if k' = k then (k', v ++ [s]) :: rest else (k', v) :: setdefaultAppend rest k s

/-- Dictionary lookup in the `vehicles` mapping. -/
def lookupVeh (m : Vehicles) (k : String) : Option (List Sample) :=
  match m with
  | [] => none
  | (k', v) :: rest => if k' = k then some v else lookupVeh rest k

/-- The inner loop of `convert`: fold the vehicle records of one timestep into
the accumulator.  A record whose `id`, `x` or `y` attribute is absent is
skipped (`continue`); a present but unparseable coordinate raises. -/
def convertVehs (t : ℚ) : List VehRecord → Vehicles → Except String Vehicles
  | [], acc => .ok acc
  | r :: rs, acc =>
    match r.id, r.x, r.y with
    | some vid, some xv, some yv =>
      match pyFloat xv with
      | .error e => .error e
      | .ok lon =>
        match pyFloat yv with
        | .error e => .error e
        | .ok lat => convertVehs t rs (setdefaultAppend acc vid ⟨t, lat, lon⟩)
    | _, _, _ => convertVehs t rs acc

/-- The outer loop of `convert`: process timesteps in document order. -/
def convertSteps : List Timestep → Vehicles → Except String Vehicles
  | [], acc => .ok acc
  | ts :: rest, acc =>
    match stepTime ts.time with
    | .error e => .error e
    | .ok t =>
      match convertVehs t ts.vehs acc with
      | .error e => .error e
      | .ok acc' => convertSteps rest acc'

/-- The function `trace_to_json.convert`: the resulting `vehicles` mapping (the surrounding
file I/O and JSON serialization are not modelled). -/
def convert (steps : List Timestep) : Except String Vehicles :=
  convertSteps steps []

/-! Specification-side projection for the refinement claim: each vehicle's
sequence is the document-order projection of its complete records, `x` read as
longitude and `y` as latitude. -/

/-- The time a timestep carries when parsing succeeds (missing defaults to 0). -/
def timeD (ts : Timestep) : ℚ :=
  match ts.time with
  | some (.num q) => q
  | _ => 0

/-- Spec-side: the sample a single record contributes to vehicle `v` at
timestep time `t`: defined only for records with `id = v` and both
coordinates present and numeric, `x` read as `lon` and `y` as `lat`. -/
def recSample (t : ℚ) (v : String) (r : VehRecord) : Option Sample :=
  match r.id, r.x, r.y with
  | some vid, some (.num x), some (.num y) =>
    if vid = v then some ⟨t, y, x⟩ else none
  | _, _, _ => none

/-- Spec-side: the samples one timestep contributes to vehicle `v`, in
document order. -/
def stepSeq (t : ℚ) (vehs : List VehRecord) (v : String) : List Sample :=
  vehs.filterMap (recSample t v)

/-- Spec-side: vehicle `v`'s full sequence, taking its records in document
order across timesteps, interpreting `x` as `lon` and `y` as `lat`. -/
def specSeq : List Timestep → String → List Sample
  | [], _ => []
  | ts :: rest, v => stepSeq (timeD ts) ts.vehs v ++ specSeq rest v

/-! The `/simulate` handler of `app.py`. -/

/-- Python `lon1, lat1, lon2, lat2 = map(float, bbox)` followed by
`bbox = [min(lon1,lon2), min(lat1,lat2), max(lon1,lon2), max(lat1,lat2)]`.
Unpacking raises unless the list has exactly four elements; `float` raises on
a non-numeric value; both are caught and reported as an invalid bbox. -/
def normalizeBbox (bbox : List XmlVal) : Except String (List ℚ) :=
  match bbox with
  | [a, b, c, d] => do
    let lon1 ← pyFloat a
    let lat1 ← pyFloat b
    let lon2 ← pyFloat c
    let lat2 ← pyFloat d
    .ok [min lon1 lon2, min lat1 lat2, max lon1 lon2, max lat1 lat2]
  | _ => .error "cannot unpack"

/-- The `new_road` field: endpoints `from` and `to`, each a `[lat, lon]` pair. -/
structure RoadProposal where
  fromLat : ℚ
  fromLon : ℚ
  toLat : ℚ
  toLon : ℚ
deriving DecidableEq

/-- The JSON request body fields read by the handler. -/
structure Request where
  bbox : Option (List XmlVal)
  new_road : Option RoadProposal
  infra_type : Option String
deriving DecidableEq

/-- The environment of external effects the handler depends on: tool
availability, oracle outcomes of the external processes, the base network's
location metadata, the projection library, and the content of the raw trace
the simulator writes. -/
structure Env where
  /-- whether `SUMO_HOME` is resolved (possibly auto-detected). -/
  sumoHome : Bool
  /-- the Overpass map download succeeds (`requests.get` + `raise_for_status`). -/
  fetchOk : Bool
  /-- the first `netconvert` invocation exits 0. -/
  netconvertBaseOk : Bool
  /-- result of `ET.parse(base_net)` and the `location` lookup: either raises, or yields the
  `projParameter` attribute (possibly absent). -/
  projParse : Except Unit (Option String)
  /-- whether `pyproj` is importable (`_CRS is not None`). -/
  pyprojAvail : Bool
  /-- building the CRS/transformer from a projection string and applying it:
  either some stage raises, or it yields a total transform `lon latt ↦ (x, y)`. -/
  mkTransformer : String → Except Unit (ℚ → ℚ → ℚ × ℚ)
  /-- the merging `netconvert` invocation exits 0. -/
  netconvertMergeOk : Bool
  /-- whether `randomTrips.py` exits 0. -/
  randomTripsOk : Bool
  /-- the `sumo` run exits 0. -/
  sumoOk : Bool
  /-- the timesteps of the FCD trace the simulation produced. -/
  traceSteps : List Timestep

def osmPath : String := "data/map.osm"
def baseNetPath : String := "data/base.net.xml"
def finalNetPath : String := "data/final.net.xml"
def nodPath : String := "data/custom.nod.xml"
def edgPath : String := "data/custom.edg.xml"
def tripsPath : String := "data/trips.xml"
def tracePath : String := "data/trace.xml"

/-- Arguments of the first `netconvert` run (base network build). -/
def netconvertBaseArgs : List String :=
  ["netconvert", "--osm-files", osmPath, "-o", baseNetPath,
   "--geometry.remove", "--ramps.guess"]

/-- Arguments of the second `netconvert` run (merge the injected segment). -/
def netconvertMergeArgs : List String :=
  ["netconvert", "--sumo-net-file", baseNetPath, "-n", nodPath, "-e", edgPath,
   "-o", finalNetPath, "--ignore-errors"]

/-- Arguments of the `randomTrips.py` invocation: hard-coded `-e 100`. -/
def tripGenArgs : List String :=
  ["python", "randomTrips.py", "-n", finalNetPath, "-e", "100", "-o", tripsPath]

/-- Arguments of the `sumo` invocation: hard-coded FCD output over `[0, 100)`. -/
def sumoRunArgs : List String :=
  ["sumo", "-n", finalNetPath, "-r", tripsPath, "--fcd-output", tracePath,
   "--begin", "0", "--end", "100"]

/-- Default edge attribute string (`numLanes="3" speed="33.33" type="highway.motorway"`). -/
def baseAttributes : String := "numLanes=\"3\" speed=\"33.33\" type=\"highway.motorway\""

/-- What the flyover branch appends first: the elevated-priority marker chunk. -/
def elevatedMarker : String := " priority=\"20\" shape=\"\" spreadType=\"center\""

/-- The flyover branch's descriptive name attribute. -/
def flyoverName : String := " name=\"Proposed Flyover\""

/-- The tunnel branch's descriptive name attribute. -/
def tunnelName : String := " name=\"Proposed Tunnel\""

/-- Edge attribute selection keyed by `infra_type` (the `if`/`elif` chain
appending to `attributes`). -/
def attributesFor (t : String) : String :=
  if t = "flyover" then baseAttributes ++ elevatedMarker ++ flyoverName
  else if t = "tunnel" then baseAttributes ++ tunnelName
  else baseAttributes

/-- The fallback coordinates: the raw endpoints with `x = lon` (index 1 of the
`[lat, lon]` pair) and `y = lat` (index 0). -/
def rawCoords (road : RoadProposal) : (ℚ × ℚ) × (ℚ × ℚ) :=
  ((road.fromLon, road.fromLat), (road.toLon, road.toLat))

/-- The coordinates written to `custom.nod.xml`: the `try` block parses the
base network's `projParameter`; if it is present and truthy, `pyproj` is
importable, and building/applying the transformer succeeds, both endpoints are
projected, otherwise (including on any exception) the raw lon/lat pair is used
as `(x, y)`. -/
def nodeCoords (env : Env) (road : RoadProposal) : (ℚ × ℚ) × (ℚ × ℚ) :=
  match env.projParse with
  | .error _ => rawCoords road
  | .ok none => rawCoords road
  | .ok (some p) =>
    if p = "" then rawCoords road
    else if env.pyprojAvail = false then rawCoords road
    else
      match env.mkTransformer p with
      | .error _ => rawCoords road
      | .ok f => (f road.fromLon road.fromLat, f road.toLon road.toLat)

/-- Which network file ends up as `final.net.xml`: the base network moved into
place, or the merge output. -/
inductive NetSource where
  | base
  | merged
deriving DecidableEq

/-- The JSON response: `status`, HTTP code, and the `data` payload when present. -/
structure Response where
  status : String
  httpCode : Nat
  data : Option Vehicles
deriving DecidableEq

/-- One external call made by the handler (map-data fetch or tool invocation),
with the argument vector for tool invocations. -/
inductive ExtCall where
  | fetchOsm (bbox : List ℚ)
  | netconvert (args : List String)
  | randomTrips (args : List String)
  | sumo (args : List String)
deriving DecidableEq

/-- The observable outcome of one `/simulate` request: the response, the
external calls made in order, the node coordinates and edge attribute string
written to the injection files (when written), and which network became the
final one. -/
structure SimOutcome where
  response : Response
  calls : List ExtCall
  nodeFile : Option ((ℚ × ℚ) × (ℚ × ℚ))
  edgeFile : Option String
  finalNet : Option NetSource
deriving DecidableEq

/-- Shorthand for the error responses (message strings are not modelled). -/
def errOutcome (code : Nat) (calls : List ExtCall) (nodeFile : Option ((ℚ × ℚ) × (ℚ × ℚ)))
    (edgeFile : Option String) (finalNet : Option NetSource) : SimOutcome :=
  ⟨⟨"error", code, none⟩, calls, nodeFile, edgeFile, finalNet⟩

/-- Stages 4-6 of the handler: random trip generation, the simulator run, and
trace conversion, given the calls and artifacts accumulated so far.  A failing
tool raises `CalledProcessError`, caught by the outer handler as a 500; a
conversion failure yields the `warning` envelope with HTTP 200. -/
def runTraffic (env : Env) (calls : List ExtCall) (nodeFile : Option ((ℚ × ℚ) × (ℚ × ℚ)))
    (edgeFile : Option String) (net : NetSource) : SimOutcome :=
  if env.randomTripsOk = false then
    errOutcome 500 (calls ++ [.randomTrips tripGenArgs]) nodeFile edgeFile (some net)
  else if env.sumoOk = false then
    errOutcome 500 (calls ++ [.randomTrips tripGenArgs, .sumo sumoRunArgs]) nodeFile edgeFile (some net)
  else
    match convert env.traceSteps with
    | .ok m =>
      ⟨⟨"success", 200, some m⟩, calls ++ [.randomTrips tripGenArgs, .sumo sumoRunArgs],
        nodeFile, edgeFile, some net⟩
    | .error _ =>
      ⟨⟨"warning", 200, none⟩, calls ++ [.randomTrips tripGenArgs, .sumo sumoRunArgs],
        nodeFile, edgeFile, some net⟩

/-- The `/simulate` handler: precondition check, bbox validation and
normalization, map fetch, base network build, optional infrastructure
injection, then traffic generation/simulation/conversion. -/
def simulate (env : Env) (req : Request) : SimOutcome :=
  if env.sumoHome = false then errOutcome 400 [] none none none
  else
    match req.bbox with
    | none => errOutcome 400 [] none none none
    | some bvs =>
      if bvs.isEmpty then errOutcome 400 [] none none none
      else
        match normalizeBbox bvs with
        | .error _ => errOutcome 400 [] none none none
        | .ok box =>
          if env.fetchOk = false then errOutcome 500 [.fetchOsm box] none none none
          else if env.netconvertBaseOk = false then
            errOutcome 500 [.fetchOsm box, .netconvert netconvertBaseArgs] none none none
          else
            match req.new_road with
            | none =>
              runTraffic env [.fetchOsm box, .netconvert netconvertBaseArgs] none none .base
            | some road =>
              let coords := nodeCoords env road
              let attrs := attributesFor (req.infra_type.getD "road")
              if env.netconvertMergeOk = false then
                errOutcome 500
                  [.fetchOsm box, .netconvert netconvertBaseArgs, .netconvert netconvertMergeArgs]
                  (some coords) (some attrs) none
              else
                runTraffic env
                  [.fetchOsm box, .netconvert netconvertBaseArgs, .netconvert netconvertMergeArgs]
                  (some coords) (some attrs) .merged

/-! Derived notions and concrete instances used by the statements. -/

/-- Recognizes a conversion-tool (`netconvert`) invocation among the calls. -/
def isNetconvertCall : ExtCall → Bool
  | .netconvert _ => true
  | _ => false

/-- A record the converter skips: `id`, `x` or `y` absent. -/
def deficient (r : VehRecord) : Bool :=
  r.id.isNone || r.x.isNone || r.y.isNone

/-- The same trace with the deficient records removed. -/
def stripDeficient (steps : List Timestep) : List Timestep :=
  steps.map fun ts => ⟨ts.time, ts.vehs.filter (fun r => !deficient r)⟩

/-- A record that makes the whole conversion raise: all three attributes
present, but `x` or `y` not parseable as a float. -/
def badRecord (r : VehRecord) : Bool :=
  r.id.isSome && r.x.isSome && r.y.isSome &&
    (r.x == some XmlVal.bad || r.y == some XmlVal.bad)

/-- Append a sample list to an optional dictionary entry, inserting the key
when absent and the list is non-empty. -/
def maybeApp : Option (List Sample) → List Sample → Option (List Sample)
  | some xs, l => some (xs ++ l)
  | none, [] => none
  | none, s :: l => some (s :: l)

/-- All the ways the injection's coordinate transform can be unavailable or
fail: the projection library is missing, parsing the base network's metadata
raises, or constructing/applying the transformer raises. -/
def transformUnavailable (env : Env) : Prop :=
  env.pyprojAvail = false ∨ env.projParse = .error () ∨
    ∀ p, env.mkTransformer p = .error ()

/-- The spec's two-timestep example trace: `t=0` with `v1` at
`(x=13.4, y=52.5)`; `t=1` with `v1` at `(x=13.41, y=52.51)` and `v2` at
`(x=10.0, y=50.0)`. -/
def exampleTrace : List Timestep :=
  [⟨some (.num 0), [⟨some "v1", some (.num 13.4), some (.num 52.5)⟩]⟩,
   ⟨some (.num 1), [⟨some "v1", some (.num 13.41), some (.num 52.51)⟩,
                    ⟨some "v2", some (.num 10), some (.num 50)⟩]⟩]

/-- The same trace with the two records of timestep `t=1` in the other order. -/
def exampleTraceSwapped : List Timestep :=
  [⟨some (.num 0), [⟨some "v1", some (.num 13.4), some (.num 52.5)⟩]⟩,
   ⟨some (.num 1), [⟨some "v2", some (.num 10), some (.num 50)⟩,
                    ⟨some "v1", some (.num 13.41), some (.num 52.51)⟩]⟩]

/-- The expected output mapping for the example trace. -/
def exampleVehicles : Vehicles :=
  [("v1", [⟨0, 52.5, 13.4⟩, ⟨1, 52.51, 13.41⟩]),
   ("v2", [⟨1, 50, 10⟩])]

/-- A trace containing one record whose `x` is present but not parseable. -/
def badTrace : List Timestep :=
  [⟨some (.num 0), [⟨some "v1", some XmlVal.bad, some (.num 52.5)⟩]⟩]

/-- A concrete environment where every external step succeeds, no projection
metadata is found and the projection library is unavailable. -/
def okEnv : Env where
  sumoHome := true
  fetchOk := true
  netconvertBaseOk := true
  projParse := .ok none
  pyprojAvail := false
  mkTransformer := fun _ => .error ()
  netconvertMergeOk := true
  randomTripsOk := true
  sumoOk := true
  traceSteps := exampleTrace

/-- A concrete well-formed bbox. -/
def goodBbox : List XmlVal := [.num 0, .num 1, .num 2, .num 3]

/-- A concrete request without an infrastructure proposal. -/
def reqNoRoad : Request := ⟨some goodBbox, none, none⟩

/-- A concrete road proposal. -/
def exampleRoad : RoadProposal := ⟨52.5, 13.4, 52.51, 13.41⟩

/-- A concrete request with an infrastructure proposal. -/
def reqWithRoad : Request := ⟨some goodBbox, some exampleRoad, some "flyover"⟩

deriving instance DecidableEq for Except

end UIDT

namespace UIDT

lemma normalizeBbox_malformed (bvs : List XmlVal)
    (h : bvs.length ≠ 4 ∨ XmlVal.bad ∈ bvs) :
    ∃ e, normalizeBbox bvs = Except.error e := by
  rcases bvs with _ | ⟨a, _ | ⟨b, _ | ⟨c, _ | ⟨d, _ | ⟨x, rest⟩⟩⟩⟩⟩
  · exact ⟨_, rfl⟩
  · exact ⟨_, rfl⟩
  · exact ⟨_, rfl⟩
  · exact ⟨_, rfl⟩
  · rcases a with qa | _ <;> rcases b with qb | _ <;> rcases c with qc | _ <;>
      rcases d with qd | _ <;> first | exact ⟨_, rfl⟩ | simp_all
  · exact ⟨_, rfl⟩

lemma normalizeBbox_ok_length (bvs : List XmlVal) (box : List ℚ)
    (h : normalizeBbox bvs = Except.ok box) : bvs.length = 4 := by
  rcases bvs with _ | ⟨a, _ | ⟨b, _ | ⟨c, _ | ⟨d, _ | ⟨x, rest⟩⟩⟩⟩⟩ <;>
    simp_all [normalizeBbox]

lemma normalizeBbox_ok_not_isEmpty (bvs : List XmlVal) (box : List ℚ)
    (h : normalizeBbox bvs = Except.ok box) : bvs.isEmpty = false := by
  have := normalizeBbox_ok_length bvs box h
  rcases bvs <;> simp_all

/-- C2 counterexample: with corners `(a,b) = (0,0)` and `(c,d) = (1,1)`, the
inputs `[a,c,b,d] = [0,1,0,1]` and `[c,a,d,b] = [1,0,1,0]` normalize to
different boxes (`[0,1,0,1]` vs `[1,0,1,0]`), refuting the claim that the two
always yield the identical canonical bounding box. -/
theorem C2_counterexample :
    normalizeBbox [XmlVal.num 0, XmlVal.num 1, XmlVal.num 0, XmlVal.num 1] ≠
      normalizeBbox [XmlVal.num 1, XmlVal.num 0, XmlVal.num 1, XmlVal.num 0] := by
  decide

/-- C2 (amended): for all corner coordinates, normalization of `[a,c,b,d]` and
of the corner-swapped input `[b,d,a,c]` yields the identical canonical
bounding box `[west, south, east, north]` with `west ≤ east` and
`south ≤ north`. -/
theorem C2_bbox_normalization (a b c d : ℚ) :
    normalizeBbox [XmlVal.num a, XmlVal.num c, XmlVal.num b, XmlVal.num d] =
      normalizeBbox [XmlVal.num b, XmlVal.num d, XmlVal.num a, XmlVal.num c] ∧
    ∃ w s e n : ℚ,
      normalizeBbox [XmlVal.num a, XmlVal.num c, XmlVal.num b, XmlVal.num d] =
        Except.ok [w, s, e, n] ∧ w ≤ e ∧ s ≤ n := by
  refine ⟨?_, min a b, min c d, max a b, max c d, rfl, min_le_max, min_le_max⟩
  show Except.ok [min a b, min c d, max a b, max c d] =
    Except.ok [min b a, min d c, max b a, max d c]
  rw [min_comm a b, min_comm c d, max_comm a b, max_comm c d]

end UIDT

namespace UIDT

lemma simulate_edgeFile (env : Env) (req : Request) :
    (simulate env req).edgeFile = none ∨
      (simulate env req).edgeFile = some (attributesFor (req.infra_type.getD "road")) := by
  unfold simulate
  split
  · exact Or.inl rfl
  · split
    · exact Or.inl rfl
    · split
      · exact Or.inl rfl
      · split
        · exact Or.inl rfl
        · split
          · exact Or.inl rfl
          · split
            · exact Or.inl rfl
            · split
              · unfold runTraffic
                split
                · exact Or.inl rfl
                · split
                  · exact Or.inl rfl
                  · split <;> exact Or.inl rfl
              · split
                · exact Or.inr rfl
                · unfold runTraffic
                  split
                  · exact Or.inr rfl
                  · split
                    · exact Or.inr rfl
                    · split <;> exact Or.inr rfl

/-- C3: edge-attribute selection is a function of `infra_type` alone:
`flyover` yields the base lane/speed/class attributes plus the
elevated-priority marker chunk and a descriptive name, `tunnel` yields the
base attributes plus a descriptive name, and any other (or absent, defaulted
to `road`) infrastructure type yields exactly the base attributes; the edge
file, when written, carries exactly `attributesFor` of the request's
`infra_type`. -/
theorem C3_attribute_policy (t : String) :
    attributesFor "flyover" = baseAttributes ++ elevatedMarker ++ flyoverName ∧
    attributesFor "tunnel" = baseAttributes ++ tunnelName ∧
    (t ≠ "flyover" → t ≠ "tunnel" → attributesFor t = baseAttributes) ∧
    baseAttributes = "numLanes=\"3\" speed=\"33.33\" type=\"highway.motorway\"" ∧
    (∀ env req, (simulate env req).edgeFile = none ∨
      (simulate env req).edgeFile = some (attributesFor (req.infra_type.getD "road"))) := by
  refine ⟨rfl, rfl, ?_, rfl, simulate_edgeFile⟩
  intro h1 h2
  simp [attributesFor, h1, h2]

/-- C3 witness: the unrecognized type `"gravel"` yields exactly the base
attributes. -/
theorem C3_witness :
    attributesFor "gravel" = baseAttributes :=
  (C3_attribute_policy "gravel").2.2.1 (by decide) (by decide)

/-- C5: for every request whose bbox is present but malformed (wrong length or
containing a non-numeric value), the handler answers with status `error` and
HTTP 400 and makes no external call at all. -/
theorem C5_malformed_bbox (env : Env) (req : Request) (bvs : List XmlVal)
    (hb : req.bbox = some bvs)
    (hm : bvs.length ≠ 4 ∨ XmlVal.bad ∈ bvs) :
    (simulate env req).response.status = "error" ∧
    (simulate env req).response.httpCode = 400 ∧
    (simulate env req).calls = [] := by
  obtain ⟨e, he⟩ := normalizeBbox_malformed bvs hm
  unfold simulate
  rcases hs : env.sumoHome <;> rcases hE : bvs.isEmpty <;>
    simp [hb, hs, hE, he, errOutcome]

/-- C5 witness at a concrete malformed bbox (length 1). -/
theorem C5_witness :
    (simulate okEnv ⟨some [XmlVal.num 0], none, none⟩).response.status = "error" ∧
    (simulate okEnv ⟨some [XmlVal.num 0], none, none⟩).response.httpCode = 400 ∧
    (simulate okEnv ⟨some [XmlVal.num 0], none, none⟩).calls = [] :=
  C5_malformed_bbox okEnv ⟨some [XmlVal.num 0], none, none⟩ [XmlVal.num 0] rfl
    (Or.inl (by decide))

end UIDT

namespace UIDT

lemma nodeCoords_fallback (env : Env) (road : RoadProposal)
    (hu : transformUnavailable env) : nodeCoords env road = rawCoords road := by
  rcases hp : env.projParse with u | p?
  · simp [nodeCoords, hp]
  · rcases p? with _ | p
    · simp [nodeCoords, hp]
    · by_cases hps : p = ""
      · simp [nodeCoords, hp, hps]
      · rcases hpy : env.pyprojAvail
        · simp [nodeCoords, hp, hps, hpy]
        · rcases hu with h | h | h
          · rw [hpy] at h; cases h
          · rw [hp] at h; cases h
          · simp [nodeCoords, hp, hps, hpy, h p]

/-- C4: when the coordinate transform is unavailable (projection library
missing, metadata parse failure, or transformer construction/application
failure), the node file receives the raw endpoints with `x = lon` and
`y = lat`, and the request still completes with HTTP 200. -/
theorem C4_projection_fallback (env : Env) (req : Request) (road : RoadProposal)
    (bvs : List XmlVal) (box : List ℚ)
    (hr : req.new_road = some road)
    (hu : transformUnavailable env)
    (hb : req.bbox = some bvs)
    (hn : normalizeBbox bvs = Except.ok box)
    (h1 : env.sumoHome = true)
    (h2 : env.fetchOk = true)
    (h3 : env.netconvertBaseOk = true)
    (h4 : env.netconvertMergeOk = true)
    (h5 : env.randomTripsOk = true)
    (h6 : env.sumoOk = true) :
    (simulate env req).nodeFile =
      some ((road.fromLon, road.fromLat), (road.toLon, road.toLat)) ∧
    (simulate env req).response.httpCode = 200 := by
  have hE := normalizeBbox_ok_not_isEmpty bvs box hn
  have hnc := nodeCoords_fallback env road hu
  rcases hc : convert env.traceSteps with e | m <;>
    simp [simulate, runTraffic, hb, h1, hE, hn, hr, h2, h3, h4, h5, h6, hc,
      hnc, rawCoords]

/-- C4 witness: concrete run with `pyproj` unavailable. -/
theorem C4_witness :
    (simulate okEnv reqWithRoad).nodeFile =
      some ((exampleRoad.fromLon, exampleRoad.fromLat),
            (exampleRoad.toLon, exampleRoad.toLat)) ∧
    (simulate okEnv reqWithRoad).response.httpCode = 200 :=
  C4_projection_fallback okEnv reqWithRoad exampleRoad goodBbox [0, 1, 2, 3]
    rfl (Or.inl rfl) rfl rfl rfl rfl rfl rfl rfl rfl

/-- C6: a request with a valid bbox and no `new_road` skips the injector:
nothing is written to the node or edge files, the conversion tool runs exactly
once, and the final network is the base network. -/
theorem C6_no_road_skips_injector (env : Env) (req : Request)
    (bvs : List XmlVal) (box : List ℚ)
    (hb : req.bbox = some bvs)
    (hn : normalizeBbox bvs = Except.ok box)
    (hr : req.new_road = none)
    (h1 : env.sumoHome = true)
    (h2 : env.fetchOk = true)
    (h3 : env.netconvertBaseOk = true) :
    (simulate env req).finalNet = some NetSource.base ∧
    (simulate env req).nodeFile = none ∧
    (simulate env req).edgeFile = none ∧
    ((simulate env req).calls.countP (fun c => isNetconvertCall c)) = 1 := by
  have hE := normalizeBbox_ok_not_isEmpty bvs box hn
  rcases h4 : env.randomTripsOk <;> rcases h5 : env.sumoOk <;>
    rcases hc : convert env.traceSteps with e | m <;>
    simp [simulate, runTraffic, errOutcome, hb, h1, hE, hn, hr, h2, h3, h4, h5,
      hc, isNetconvertCall]

/-- C6 witness: concrete run without a proposal. -/
theorem C6_witness :
    (simulate okEnv reqNoRoad).finalNet = some NetSource.base ∧
    (simulate okEnv reqNoRoad).nodeFile = none ∧
    (simulate okEnv reqNoRoad).edgeFile = none ∧
    ((simulate okEnv reqNoRoad).calls.countP (fun c => isNetconvertCall c)) = 1 :=
  C6_no_road_skips_injector okEnv reqNoRoad goodBbox [0, 1, 2, 3]
    rfl rfl rfl rfl rfl rfl

/-- C7: when every stage up to the simulation succeeds, a conversion failure
yields the `warning` envelope with HTTP 200 and no data, while a successful
conversion yields the `success` envelope with the converted vehicles in
`data`. -/
theorem C7_conversion_envelope (env : Env) (req : Request)
    (bvs : List XmlVal) (box : List ℚ)
    (hb : req.bbox = some bvs)
    (hn : normalizeBbox bvs = Except.ok box)
    (h1 : env.sumoHome = true)
    (h2 : env.fetchOk = true)
    (h3 : env.netconvertBaseOk = true)
    (hmerge : req.new_road = none ∨ env.netconvertMergeOk = true)
    (h4 : env.randomTripsOk = true)
    (h5 : env.sumoOk = true) :
    (∀ m, convert env.traceSteps = Except.ok m →
      (simulate env req).response = ⟨"success", 200, some m⟩) ∧
    (∀ e, convert env.traceSteps = Except.error e →
      (simulate env req).response = ⟨"warning", 200, none⟩) := by
  have hE := normalizeBbox_ok_not_isEmpty bvs box hn
  constructor
  · intro m hm'
    rcases hr : req.new_road with _ | road
    · simp [simulate, runTraffic, hb, h1, hE, hn, hr, h2, h3, h4, h5, hm']
    · have hmg : env.netconvertMergeOk = true := by
        rcases hmerge with h | h
        · rw [hr] at h; cases h
        · exact h
      simp [simulate, runTraffic, hb, h1, hE, hn, hr, h2, h3, h4, h5, hm', hmg]
  · intro e he'
    rcases hr : req.new_road with _ | road
    · simp [simulate, runTraffic, hb, h1, hE, hn, hr, h2, h3, h4, h5, he']
    · have hmg : env.netconvertMergeOk = true := by
        rcases hmerge with h | h
        · rw [hr] at h; cases h
        · exact h
      simp [simulate, runTraffic, hb, h1, hE, hn, hr, h2, h3, h4, h5, he', hmg]

/-- C7 witness: the concrete successful run returns the converted example
vehicles with status `success` and HTTP 200. -/
theorem C7_witness :
    (simulate okEnv reqNoRoad).response = ⟨"success", 200, some exampleVehicles⟩ :=
  (C7_conversion_envelope okEnv reqNoRoad goodBbox [0, 1, 2, 3]
    rfl rfl rfl rfl rfl (Or.inl rfl) rfl rfl).1 exampleVehicles rfl

end UIDT

namespace UIDT

lemma runTraffic_calls_sub (env : Env) (cs : List ExtCall)
    (nf : Option ((ℚ × ℚ) × (ℚ × ℚ))) (ef : Option String) (net : NetSource) :
    ∀ c ∈ (runTraffic env cs nf ef net).calls,
      c ∈ cs ∨ c = ExtCall.randomTrips tripGenArgs ∨ c = ExtCall.sumo sumoRunArgs := by
  intro c hc
  unfold runTraffic at hc
  split at hc
  · simp [errOutcome] at hc
    tauto
  · split at hc
    · simp [errOutcome] at hc
      tauto
    · split at hc <;> simp at hc <;> tauto

lemma simulate_calls_sub (env : Env) (req : Request) :
    ∀ c ∈ (simulate env req).calls,
      (∃ b, c = ExtCall.fetchOsm b) ∨
      c = ExtCall.netconvert netconvertBaseArgs ∨
      c = ExtCall.netconvert netconvertMergeArgs ∨
      c = ExtCall.randomTrips tripGenArgs ∨
      c = ExtCall.sumo sumoRunArgs := by
  intro c hc
  unfold simulate at hc
  split at hc
  · simp [errOutcome] at hc
  · split at hc
    · simp [errOutcome] at hc
    · split at hc
      · simp [errOutcome] at hc
      · split at hc
        · simp [errOutcome] at hc
        · split at hc
          · simp [errOutcome] at hc
            tauto
          · split at hc
            · simp [errOutcome] at hc
              tauto
            · split at hc
              · rcases runTraffic_calls_sub _ _ _ _ _ c hc with h | h | h
                · simp at h
                  tauto
                · tauto
                · tauto
              · split at hc
                · simp [errOutcome] at hc
                  tauto
                · rcases runTraffic_calls_sub _ _ _ _ _ c hc with h | h | h
                  · simp at h
                    tauto
                  · tauto
                  · tauto

/-- C8: the trip-generation and simulation stages always run with fixed,
request-independent parameters: every `randomTrips.py` invocation carries
exactly the hard-coded argument vector with trip parameter `100`, and every
simulator invocation carries exactly the hard-coded horizon `--begin 0
--end 100` with FCD (raw trace) output. -/
theorem C8_fixed_parameters :
    (∀ env req args, ExtCall.randomTrips args ∈ (simulate env req).calls →
      args = tripGenArgs) ∧
    (∀ env req args, ExtCall.sumo args ∈ (simulate env req).calls →
      args = sumoRunArgs) ∧
    tripGenArgs =
      ["python", "randomTrips.py", "-n", finalNetPath, "-e", "100", "-o", tripsPath] ∧
    sumoRunArgs =
      ["sumo", "-n", finalNetPath, "-r", tripsPath, "--fcd-output", tracePath,
       "--begin", "0", "--end", "100"] := by
  refine ⟨?_, ?_, rfl, rfl⟩
  · intro env req args h
    rcases simulate_calls_sub env req _ h with ⟨b, hb⟩ | h' | h' | h' | h' <;> simp_all
  · intro env req args h
    rcases simulate_calls_sub env req _ h with ⟨b, hb⟩ | h' | h' | h' | h' <;> simp_all

/-- C8 witness: the concrete successful run makes the fixed trip-generation
call. -/
theorem C8_witness :
    ExtCall.randomTrips tripGenArgs ∈ (simulate okEnv reqNoRoad).calls ∧
    tripGenArgs = tripGenArgs :=
  ⟨by decide, C8_fixed_parameters.1 okEnv reqNoRoad tripGenArgs (by decide)⟩

end UIDT

namespace UIDT

lemma convertVehs_skip (t : ℚ) (r : VehRecord) (rs : List VehRecord)
    (acc : Vehicles) (hd : deficient r = true) :
    convertVehs t (r :: rs) acc = convertVehs t rs acc := by
  rcases r with ⟨i, x, y⟩
  rcases i with _ | vid <;> rcases x with _ | xv <;> rcases y with _ | yv <;>
    simp_all [deficient, convertVehs]

lemma badRecord_false_of_deficient (r : VehRecord) (hd : deficient r = true) :
    badRecord r = false := by
  rcases r with ⟨i, x, y⟩
  rcases i with _ | vid <;> rcases x with _ | xv <;> rcases y with _ | yv <;>
    simp_all [deficient, badRecord]

lemma convertVehs_filterDeficient (t : ℚ) (vehs : List VehRecord) :
    ∀ acc, convertVehs t (vehs.filter (fun r => !deficient r)) acc =
      convertVehs t vehs acc := by
  induction vehs with
  | nil => intro acc; rfl
  | cons r rs ih =>
    intro acc
    rcases hd : deficient r with _ | _
    · rw [List.filter_cons_of_pos (by simp [hd])]
      rcases r with ⟨i, x, y⟩
      rcases i with _ | vid
      · simp [deficient] at hd
      · rcases x with _ | xv
        · simp [deficient] at hd
        · rcases y with _ | yv
          · simp [deficient] at hd
          · rcases hx : pyFloat xv with e | lon
            · simp [convertVehs, hx]
            · rcases hy : pyFloat yv with e | lat
              · simp [convertVehs, hx, hy]
              · simp [convertVehs, hx, hy, ih]
    · rw [List.filter_cons_of_neg (by simp [hd]), convertVehs_skip t r rs acc hd]
      exact ih acc

lemma convertSteps_stripDeficient (steps : List Timestep) :
    ∀ acc, convertSteps (stripDeficient steps) acc = convertSteps steps acc := by
  induction steps with
  | nil => intro acc; rfl
  | cons ts rest ih =>
    intro acc
    show convertSteps (⟨ts.time, ts.vehs.filter (fun r => !deficient r)⟩ ::
      stripDeficient rest) acc = _
    rcases ht : stepTime ts.time with e | t
    · simp [convertSteps, ht]
    · rw [show convertSteps (⟨ts.time, ts.vehs.filter (fun r => !deficient r)⟩ ::
        stripDeficient rest) acc =
          match convertVehs t (ts.vehs.filter (fun r => !deficient r)) acc with
          | .error e => .error e
          | .ok acc' => convertSteps (stripDeficient rest) acc' by
            simp [convertSteps, ht]]
      rw [convertVehs_filterDeficient]
      rcases hcv : convertVehs t ts.vehs acc with e | acc'
      · simp [convertSteps, ht, hcv]
      · simp [convertSteps, ht, hcv, ih]

/-- C9: the converter skips any record whose `id`, `x` or `y` attribute is
absent: the conversion of a trace equals the conversion of the same trace with
the deficient records removed (so a skipped record never raises and never
affects any vehicle's sequence). -/
theorem C9_deficient_records_skipped (steps : List Timestep) :
    convert steps = convert (stripDeficient steps) :=
  (convertSteps_stripDeficient steps []).symm

lemma convertVehs_bad (t : ℚ) (vehs : List VehRecord) :
    ∀ acc, vehs.any badRecord = true →
      ∃ e, convertVehs t vehs acc = Except.error e := by
  induction vehs with
  | nil => intro acc h; cases h
  | cons r rs ih =>
    intro acc h
    rcases hd : deficient r with _ | _
    · rcases r with ⟨i, x, y⟩
      rcases i with _ | vid
      · simp [deficient] at hd
      · rcases x with _ | xv
        · simp [deficient] at hd
        · rcases y with _ | yv
          · simp [deficient] at hd
          · rcases hx : pyFloat xv with e | lon
            · exact ⟨e, by simp [convertVehs, hx]⟩
            · rcases hy : pyFloat yv with e | lat
              · exact ⟨e, by simp [convertVehs, hx, hy]⟩
              · rcases xv with qx | _
                · rcases yv with qy | _
                  · have hb : badRecord ⟨some vid, some (XmlVal.num qx),
                        some (XmlVal.num qy)⟩ = false := rfl
                    rw [List.any_cons, hb, Bool.false_or] at h
                    obtain ⟨e, he⟩ := ih (setdefaultAppend acc vid ⟨t, lat, lon⟩) h
                    exact ⟨e, by simp [convertVehs, hx, hy, he]⟩
                  · cases hy
                · cases hx
    · rw [List.any_cons, badRecord_false_of_deficient r hd, Bool.false_or] at h
      rw [convertVehs_skip t r rs acc hd]
      exact ih acc h

lemma convertSteps_bad (steps : List Timestep) :
    ∀ acc, steps.any (fun ts => ts.vehs.any badRecord) = true →
      ∃ e, convertSteps steps acc = Except.error e := by
  induction steps with
  | nil => intro acc h; cases h
  | cons ts rest ih =>
    intro acc h
    rcases ht : stepTime ts.time with e | t
    · exact ⟨e, by simp [convertSteps, ht]⟩
    · rcases hv : ts.vehs.any badRecord with _ | _
      · rw [List.any_cons] at h
        simp only [hv, Bool.false_or] at h
        rcases hcv : convertVehs t ts.vehs acc with e | acc'
        · exact ⟨e, by simp [convertSteps, ht, hcv]⟩
        · obtain ⟨e, he⟩ := ih acc' h
          exact ⟨e, by simp [convertSteps, ht, hcv, he]⟩
      · obtain ⟨e, he⟩ := convertVehs_bad t ts.vehs acc hv
        exact ⟨e, by simp [convertSteps, ht, he]⟩

/-- C10: a vehicle record whose `x` or `y` attribute is present but not
parseable as a number is not skipped: the whole conversion raises and produces
no mapping, in contrast to a record with a missing attribute, which is skipped
and leaves the rest of the conversion unchanged. -/
theorem C10_unparseable_coordinate_raises :
    (∀ steps, steps.any (fun ts => ts.vehs.any badRecord) = true →
      ∃ e, convert steps = Except.error e) ∧
    (∀ (t : ℚ) (r : VehRecord) (rs : List VehRecord) (acc : Vehicles),
      deficient r = true → convertVehs t (r :: rs) acc = convertVehs t rs acc) := by
  constructor
  · intro steps h
    exact convertSteps_bad steps [] h
  · intro t r rs acc hd
    exact convertVehs_skip t r rs acc hd

/-- C10 witness: the concrete trace with an unparseable `x` fails to convert,
while a record with all attributes missing is skipped. -/
theorem C10_witness :
    (∃ e, convert badTrace = Except.error e) ∧
    convertVehs 0 [⟨none, none, none⟩] [] = convertVehs 0 [] [] :=
  ⟨C10_unparseable_coordinate_raises.1 badTrace rfl,
   C10_unparseable_coordinate_raises.2 0 ⟨none, none, none⟩ [] [] rfl⟩

end UIDT

namespace UIDT

lemma maybeApp_nil (o : Option (List Sample)) : maybeApp o [] = o := by
  rcases o with _ | xs
  · rfl
  · simp [maybeApp]

lemma maybeApp_none_eq (l : List Sample) :
    maybeApp none l = if l = [] then none else some l := by
  rcases l with _ | ⟨s, l⟩ <;> simp [maybeApp]

lemma maybeApp_getD_cons (o : Option (List Sample)) (s : Sample) (l : List Sample) :
    maybeApp (some (o.getD [] ++ [s])) l = maybeApp o (s :: l) := by
  rcases o with _ | xs <;> simp [maybeApp]

lemma maybeApp_assoc (o : Option (List Sample)) (l1 l2 : List Sample) :
    maybeApp (maybeApp o l1) l2 = maybeApp o (l1 ++ l2) := by
  rcases o with _ | xs
  · rcases l1 with _ | ⟨a, l⟩ <;> simp [maybeApp]
  · simp [maybeApp]

lemma lookup_setdefaultAppend (m : Vehicles) (k q : String) (s : Sample) :
    lookupVeh (setdefaultAppend m k s) q =
      if k = q then some ((lookupVeh m q).getD [] ++ [s]) else lookupVeh m q := by
  induction m with
  | nil =>
    by_cases hq : k = q <;> simp [setdefaultAppend, lookupVeh, hq]
  | cons kv rest ih =>
    obtain ⟨k', v⟩ := kv
    by_cases hk : k' = k
    · subst hk
      by_cases hq : k' = q <;> simp [setdefaultAppend, lookupVeh, hq]
    · by_cases hq : k' = q
      · subst hq
        have hkq : ¬k = k' := fun h => hk h.symm
        simp [setdefaultAppend, lookupVeh, hk, hkq]
      · simp [setdefaultAppend, lookupVeh, hk, hq, ih]

lemma timeD_of_stepTime (ts : Timestep) (t : ℚ)
    (h : stepTime ts.time = Except.ok t) : t = timeD ts := by
  rcases hts : ts.time with _ | v
  · rw [hts] at h
    simp [stepTime] at h
    simp [timeD, hts, h]
  · rcases v with q | _
    · rw [hts] at h
      simp [stepTime, pyFloat] at h
      simp [timeD, hts, h]
    · rw [hts] at h
      simp [stepTime, pyFloat] at h

lemma stepSeq_skip (t : ℚ) (r : VehRecord) (rs : List VehRecord) (q : String)
    (hd : deficient r = true) : stepSeq t (r :: rs) q = stepSeq t rs q := by
  rcases r with ⟨i, x, y⟩
  rcases i with _ | vid <;> rcases x with _ | (qx | _) <;>
    rcases y with _ | (qy | _) <;>
    simp_all [deficient, stepSeq, recSample, List.filterMap_cons]

lemma convertVehs_lookup (t : ℚ) (vehs : List VehRecord) :
    ∀ acc m, convertVehs t vehs acc = Except.ok m →
      ∀ q, lookupVeh m q = maybeApp (lookupVeh acc q) (stepSeq t vehs q) := by
  induction vehs with
  | nil =>
    intro acc m hm q
    have hm' : Except.ok acc = Except.ok m := hm
    injection hm' with h
    subst h
    exact (maybeApp_nil _).symm
  | cons r rs ih =>
    intro acc m hm q
    rcases hd : deficient r with _ | _
    · rcases r with ⟨i, x, y⟩
      rcases i with _ | vid
      · simp [deficient] at hd
      · rcases x with _ | xv
        · simp [deficient] at hd
        · rcases y with _ | yv
          · simp [deficient] at hd
          · rcases xv with qx | _
            · rcases yv with qy | _
              · have hm' : convertVehs t rs
                    (setdefaultAppend acc vid ⟨t, qy, qx⟩) = Except.ok m := hm
                rw [ih _ m hm' q, lookup_setdefaultAppend]
                by_cases hq : vid = q
                · rw [if_pos hq, maybeApp_getD_cons]
                  have hs : stepSeq t (⟨some vid, some (XmlVal.num qx),
                      some (XmlVal.num qy)⟩ :: rs) q =
                      ⟨t, qy, qx⟩ :: stepSeq t rs q := by
                    simp [stepSeq, recSample, List.filterMap_cons, hq]
                  rw [hs]
                · rw [if_neg hq]
                  have hs : stepSeq t (⟨some vid, some (XmlVal.num qx),
                      some (XmlVal.num qy)⟩ :: rs) q = stepSeq t rs q := by
                    simp [stepSeq, recSample, List.filterMap_cons, hq]
                  rw [hs]
              · simp [convertVehs, pyFloat] at hm
            · simp [convertVehs, pyFloat] at hm
    · rw [convertVehs_skip t r rs acc hd] at hm
      rw [stepSeq_skip t r rs q hd]
      exact ih acc m hm q

lemma convertSteps_lookup (steps : List Timestep) :
    ∀ acc m, convertSteps steps acc = Except.ok m →
      ∀ q, lookupVeh m q = maybeApp (lookupVeh acc q) (specSeq steps q) := by
  induction steps with
  | nil =>
    intro acc m hm q
    have hm' : Except.ok acc = Except.ok m := hm
    injection hm' with h
    subst h
    exact (maybeApp_nil _).symm
  | cons ts rest ih =>
    intro acc m hm q
    rcases ht : stepTime ts.time with e | t
    · simp [convertSteps, ht] at hm
    · rcases hcv : convertVehs t ts.vehs acc with e | acc'
      · simp [convertSteps, ht, hcv] at hm
      · have hm' : convertSteps rest acc' = Except.ok m := by
          rw [← hm]
          simp [convertSteps, ht, hcv]
        rw [ih acc' m hm' q, convertVehs_lookup t ts.vehs acc acc' hcv q,
          maybeApp_assoc]
        have : specSeq (ts :: rest) q = stepSeq (timeD ts) ts.vehs q ++ specSeq rest q := rfl
        rw [this, timeD_of_stepTime ts t ht]

lemma mem_stepSeq_time (t : ℚ) (vehs : List VehRecord) (q : String) (s : Sample)
    (h : s ∈ stepSeq t vehs q) : s.time = t := by
  unfold stepSeq at h
  rw [List.mem_filterMap] at h
  obtain ⟨r, hr, hf⟩ := h
  rcases r with ⟨i, x, y⟩
  rcases i with _ | vid <;> rcases x with _ | (qx | _) <;>
    rcases y with _ | (qy | _) <;> simp [recSample] at hf
  obtain ⟨_, rfl⟩ := hf
  rfl

lemma mem_specSeq_time (steps : List Timestep) (q : String) (s : Sample)
    (h : s ∈ specSeq steps q) : ∃ ts ∈ steps, s.time = timeD ts := by
  induction steps with
  | nil => cases h
  | cons ts rest ih =>
    have h' : s ∈ stepSeq (timeD ts) ts.vehs q ++ specSeq rest q := h
    rw [List.mem_append] at h'
    rcases h' with h' | h'
    · exact ⟨ts, List.mem_cons_self ts rest, mem_stepSeq_time _ _ _ _ h'⟩
    · obtain ⟨ts', hts', hbt⟩ := ih h'
      exact ⟨ts', List.mem_cons_of_mem ts hts', hbt⟩

lemma specSeq_sorted (steps : List Timestep) (q : String)
    (h : List.Pairwise (· ≤ ·) (steps.map timeD)) :
    List.Pairwise (fun a b : Sample => a.time ≤ b.time) (specSeq steps q) := by
  induction steps with
  | nil => exact List.Pairwise.nil
  | cons ts rest ih =>
    rw [List.map_cons, List.pairwise_cons] at h
    obtain ⟨hle, hrest⟩ := h
    show List.Pairwise _ (stepSeq (timeD ts) ts.vehs q ++ specSeq rest q)
    rw [List.pairwise_append]
    refine ⟨?_, ih hrest, ?_⟩
    · apply List.pairwise_of_forall_mem_list
      intro a ha b hb
      rw [mem_stepSeq_time _ _ _ _ ha, mem_stepSeq_time _ _ _ _ hb]
    · intro a ha b hb
      obtain ⟨ts', hts', hbt⟩ := mem_specSeq_time rest q b hb
      rw [mem_stepSeq_time _ _ _ _ ha, hbt]
      exact hle (timeD ts') (List.mem_map_of_mem timeD hts')

/-- C1: on every successfully converted trace the output maps each vehicle id
to the document-order sequence of its complete records, `x` read as `lon` and
`y` read as `lat` (vehicles with no complete record are absent); when the
timesteps are in ascending time order every vehicle's sequence is ascending in
time; and the spec's two-timestep example converts to exactly the stated
mapping, in either record order within the second timestep. -/
theorem C1_trace_converter :
    (∀ steps m, convert steps = Except.ok m → ∀ v,
      lookupVeh m v =
        if specSeq steps v = [] then none else some (specSeq steps v)) ∧
    (∀ steps v, List.Pairwise (· ≤ ·) (steps.map timeD) →
      List.Pairwise (fun a b : Sample => a.time ≤ b.time) (specSeq steps v)) ∧
    convert exampleTrace = Except.ok exampleVehicles ∧
    convert exampleTraceSwapped = Except.ok exampleVehicles := by
  refine ⟨?_, fun steps v h => specSeq_sorted steps v h, rfl, rfl⟩
  intro steps m hm v
  have h := convertSteps_lookup steps [] m hm v
  rw [h]
  exact maybeApp_none_eq _

/-- C1 witness: applied to the example trace, vehicle `v2`'s entry is its
document-order projection, and `v1`'s sequence is ascending in time. -/
theorem C1_witness :
    lookupVeh exampleVehicles "v2" =
      (if specSeq exampleTrace "v2" = [] then none
       else some (specSeq exampleTrace "v2")) ∧
    List.Pairwise (fun a b : Sample => a.time ≤ b.time)
      (specSeq exampleTrace "v1") :=
  ⟨C1_trace_converter.1 exampleTrace exampleVehicles rfl "v2",
   C1_trace_converter.2.1 exampleTrace "v1" (by decide)⟩

end UIDT
